import Mathlib

/-!
Shallow embedding of the client-side chat synchronization engine of the
muhammadjan428/chat-app repository.

The embedding covers:
* the `Message` data model (src/types/chat.ts), with JS `undefined`
  booleans collapsed to `false` (the source only ever tests truthiness of
  `isOptimistic` / `isSending` / `sendError` / `isRead`) and ISO timestamp
  strings modelled as natural numbers;
* the operations of the `useMessages` hook (src/hooks/useMessages.ts):
  `addOptimisticMessage`, `updateMessageStatus`, `sendMessage`,
  `retryMessage`, `addMessage`, `updateMessageReadStatus`,
  `setMessagesData`, `removeMessage`, `clearMessages`.  The hook's three
  pieces of state (`messages`, `pendingMessagesRef`, `retryTimeoutsRef`)
  are bundled into an explicit `ChatState`; the `Map` refs are modelled as
  association lists.  The asynchronous `fetch` of a send is modelled by a
  `SendOutcome` parameter giving the response (`ok` with the server's
  canonical message, or `fail` covering both a non-ok response and a
  thrown transport error, which run the same failure code), and the issued
  POST body is returned explicitly so that "no request was issued" is a
  statable fact;
* the typing-indicator logic of `handleTyping` in
  src/components/MessageInput.tsx, with the 2-second inactivity
  `setTimeout` modelled as a pending-timer flag plus an explicit
  `timeoutFire` step (each keystroke clears and re-arms the single timer,
  so only the last armed timer can fire);
* the channel subscription logic: the pusher-js transport (subscriptions
  keyed by channel name: subscribing an already-subscribed name returns
  the existing channel and issues no new underlying subscribe call;
  `unsubscribe` removes the named channel unconditionally), the channel
  name constructors of `PUSHER_CHANNELS` (src/unnamed/part_005), the
  chat-channel effect of `usePusher` (src/hooks/usePusher.ts) and the
  typing subscription effect of `ChatSidebar` (src/unnamed/part_004).
-/

namespace ChatApp

/-- List.map is the identity when the function fixes every element. -/
theorem listMapId {α : Type} (f : α → α) :
    ∀ (l : List α), (∀ x ∈ l, f x = x) → l.map f = l := by
  intro l h
  induction l with
  | nil => rfl
  | cons a t ih =>
      simp only [List.map_cons]
      rw [h a (by simp), ih (fun x hx => h x (by simp [hx]))]

/-- List.filter keeps everything when the predicate holds everywhere. -/
theorem listFilterAll {α : Type} (p : α → Bool) :
    ∀ (l : List α), (∀ x ∈ l, p x = true) → l.filter p = l := by
  intro l h
  induction l with
  | nil => rfl
  | cons a t ih =>
      simp only [List.filter_cons, h a (by simp)]
      rw [ih (fun x hx => h x (by simp [hx]))]
      simp

/-- List.find? returns none when the predicate fails everywhere. -/
theorem listFindNone {α : Type} (p : α → Bool) :
    ∀ (l : List α), (∀ x ∈ l, p x = false) → l.find? p = none := by
  intro l h
  induction l with
  | nil => rfl
  | cons a t ih =>
      simp only [List.find?_cons, h a (by simp)]
      exact ih (fun x hx => h x (by simp [hx]))

/-- List.countP is zero when the predicate fails everywhere. -/
theorem listCountPZero {α : Type} (p : α → Bool) :
    ∀ (l : List α), (∀ x ∈ l, p x = false) → l.countP p = 0 := by
  intro l h
  induction l with
  | nil => rfl
  | cons a t ih =>
      rw [List.countP_cons, h a (by simp), ih (fun x hx => h x (by simp [hx]))]
      simp

/-- JS `String.prototype.trim`: strip leading and trailing whitespace.
Defined over the character list so that it evaluates by kernel
reduction. -/
def strTrim (s : String) : String :=
  ⟨((s.data.dropWhile Char.isWhitespace).reverse.dropWhile
      Char.isWhitespace).reverse⟩

/-- The `sender` sub-object of a Message (src/types/chat.ts). -/
structure Sender where
  clerkId : String
  first_name : String
  last_name : String
  image : Option String
deriving DecidableEq

/-- One entry of a message's `readBy` array: user id plus read timestamp
(`readAt`, an ISO string in the source, modelled as a Nat). -/
structure ReadEntry where
  userId : String
  readAt : Nat
deriving DecidableEq

/-- The Message record of src/types/chat.ts.  Optional booleans are
collapsed to `Bool` (JS `undefined` ≡ `false` under the truthiness tests
the source performs); `readBy : undefined` is collapsed to `[]` (the
source guards every access with `msg.readBy ? ... : []`); timestamps are
Nats.  `tempId` stays an `Option` because the source tests its presence
(`msg.tempId && ...`). -/
structure Message where
  _id : String
  content : String
  senderId : String
  chatId : String
  createdAt : Nat
  messageType : String
  sender : Sender
  readBy : List ReadEntry
  isRead : Bool
  readCount : Nat
  isOptimistic : Bool
  isSending : Bool
  sendError : Bool
  tempId : Option String
deriving DecidableEq

/-- The state owned by the `useMessages` hook: the visible `messages`
array, the Pending-Send Registry `pendingMessagesRef` (a Map from temp id
to the speculative message, modelled as an association list) and the
retry-timer table `retryTimeoutsRef` (a Map from temp id to a scheduled
timeout, modelled as an association list from temp id to the delay in
milliseconds). -/
structure ChatState where
  messages : List Message
  pending : List (String × Message)
  retryTimers : List (String × Nat)
deriving DecidableEq

/-- The function `Map.set` on an association list: insert the key, replacing any
previous binding. -/
def assocSet {β : Type} (k : String) (v : β) (l : List (String × β)) :
    List (String × β) :=
  (k, v) :: l.filter (fun p => decide (p.1 ≠ k))

/-- The function `Map.delete` on an association list. -/
def assocDelete {β : Type} (k : String) (l : List (String × β)) :
    List (String × β) :=
  l.filter (fun p => decide (p.1 ≠ k))

/-- The body of the `/api/chat/send` POST request that `sendMessage` and
`retryMessage` issue (src/hooks/useMessages.ts lines 119-127 and 91-99). -/
structure SendRequest where
  chatId : String
  content : String
  messageType : String
deriving DecidableEq

/-- Result of an operation that may issue a send request: the new hook
state plus the request body, `none` when no request was issued. -/
structure SendEffect where
  state : ChatState
  request : Option SendRequest
deriving DecidableEq

/-- The outcome of the asynchronous `fetch` in `sendMessage` /
`retryMessage`: `ok` with the canonical message the server returned, or
`fail` (covering both a non-ok HTTP response and a thrown transport
error — the two run identical failure code in the source). -/
inductive SendOutcome where
  | ok (newMessage : Message)
  | fail
deriving DecidableEq

/-- The speculative message `addOptimisticMessage` constructs
(src/hooks/useMessages.ts lines 23-44): authored by the local user,
read-by = {self}, marked optimistic and sending, with the temp id doubling
as `_id`. -/
def optimisticMessage (cid uid tempId : String) (now : Nat)
    (content : String) : Message :=
  { _id := tempId
    tempId := some tempId
    chatId := cid
    content := content
    senderId := uid
    messageType := "text"
    createdAt := now
    sender := { clerkId := uid, first_name := "You", last_name := "",
                image := none }
    readBy := [{ userId := uid, readAt := now }]
    isRead := false
    readCount := 1
    isOptimistic := true
    isSending := true
    sendError := false }

/-- The function `addOptimisticMessage` (src/hooks/useMessages.ts lines 19-51).
`chatId` and `userId` are the hook's (nullable) context values; `tempId`
stands for the fresh `uuidv4()` and `now` for `new Date()`.  Returns the
new state together with the returned temp id (`''` on the guard path). -/
def addOptimisticMessage (chatId userId : Option String) (tempId : String)
    (now : Nat) (content : String) (s : ChatState) : ChatState × String :=
  match userId, chatId with
  | some uid, some cid =>
      ({ s with
          messages := s.messages
            ++ [optimisticMessage cid uid tempId now content]
          pending := assocSet tempId
            (optimisticMessage cid uid tempId now content) s.pending },
        tempId)
  | _, _ => (s, "")

/-- The map callback of `updateMessageStatus` (src/hooks/useMessages.ts
lines 55-75): on the matching message (by temp id or canonical id), mark
it failed when `error` is set, else substitute the canonical message with
the optimistic flags cleared; other messages are untouched. -/
def updateStatusReplace (tempId : String) (newMessage : Option Message)
    (error : Bool) (msg : Message) : Message :=
  if msg.tempId = some tempId ∨ msg._id = tempId then
    if error then
      { msg with isSending := false, sendError := true,
                 isOptimistic := true }
    else
      match newMessage with
      | some nm => { nm with isOptimistic := false, isSending := false }
      | none => msg
  else msg

/-- The function `updateMessageStatus` (src/hooks/useMessages.ts lines 54-76).  The
`pendingMessagesRef.delete(tempId)` that the source performs inside the
map callback (once per matching message, on the success branch) is
modelled as a single conditional delete, which is equivalent since
deletion is idempotent. -/
def updateMessageStatus (tempId : String) (newMessage : Option Message)
    (error : Bool) (s : ChatState) : ChatState :=
  { s with
    messages := s.messages.map (updateStatusReplace tempId newMessage error)
    pending :=
      if error = false ∧ newMessage.isSome
          ∧ s.messages.any (fun msg =>
              decide (msg.tempId = some tempId ∨ msg._id = tempId)) then
        assocDelete tempId s.pending
      else s.pending }

/-- The function `updateStatusReplace` on a non-matching message is the identity. -/
theorem updateStatusReplace_no_target (tempId : String)
    (newMessage : Option Message) (error : Bool) (msg : Message)
    (h : ¬(msg.tempId = some tempId ∨ msg._id = tempId)) :
    updateStatusReplace tempId newMessage error msg = msg := by
  unfold updateStatusReplace
  rw [if_neg h]

/-- The function `updateStatusReplace` on the matching message, failure case. -/
theorem updateStatusReplace_error_target (tempId : String)
    (newMessage : Option Message) (msg : Message)
    (h : msg.tempId = some tempId ∨ msg._id = tempId) :
    updateStatusReplace tempId newMessage true msg
      = { msg with isSending := false, sendError := true,
                   isOptimistic := true } := by
  unfold updateStatusReplace
  rw [if_pos h]
  simp

/-- The function `updateStatusReplace` on the matching message, success case: the
canonical message replaces it with the optimistic flags cleared. -/
theorem updateStatusReplace_ok_target (tempId : String) (nm : Message)
    (msg : Message) (h : msg.tempId = some tempId ∨ msg._id = tempId) :
    updateStatusReplace tempId (some nm) false msg
      = { nm with isOptimistic := false, isSending := false } := by
  unfold updateStatusReplace
  rw [if_pos h]
  simp

/-- The function `retryMessage` (src/hooks/useMessages.ts lines 79-110), with the
awaited fetch collapsed into the `outcome` parameter.  The source reads
the `messages` closure value; here that is the `messages` field of the
current state. -/
def retryMessage (chatId : Option String) (tempId : String)
    (outcome : SendOutcome) (s : ChatState) : SendEffect :=
  match s.messages.find?
      (fun msg => decide (msg.tempId = some tempId ∨ msg._id = tempId)),
    chatId with
  | some message, some cid =>
      let s1 := { s with
        messages := s.messages.map fun msg =>
          if msg.tempId = some tempId ∨ msg._id = tempId then
            { msg with isSending := true, sendError := false }
          else msg }
      let req : SendRequest :=
        { chatId := cid, content := message.content,
          messageType := message.messageType }
      match outcome with
      | .ok nm => { state := updateMessageStatus tempId (some nm) false s1,
                    request := some req }
      | .fail => { state := updateMessageStatus tempId none true s1,
                   request := some req }
  | _, _ => { state := s, request := none }

/-- The function `sendMessage` (src/hooks/useMessages.ts lines 113-150), with the
awaited fetch collapsed into the `outcome` parameter.  On failure the
source schedules a `setTimeout` of 3000 ms that will run `retryMessage`;
scheduling is modelled by inserting `(tempId, 3000)` into the retry-timer
table (`retryTimeoutsRef.current.set`). -/
def sendMessage (chatId userId : Option String) (tempId : String)
    (now : Nat) (content : String) (outcome : SendOutcome) (s : ChatState) :
    SendEffect :=
  match chatId, userId with
  | some cid, some uid =>
      if strTrim content = "" then { state := s, request := none }
      else
        let s1 := (addOptimisticMessage (some cid) (some uid) tempId now
          (strTrim content) s).1
        let req : SendRequest :=
          { chatId := cid, content := strTrim content,
            messageType := "text" }
        match outcome with
        | .ok nm =>
            { state := updateMessageStatus tempId (some nm) false s1,
              request := some req }
        | .fail =>
            let s2 := updateMessageStatus tempId none true s1
            { state := { s2 with
                retryTimers := assocSet tempId 3000 s2.retryTimers },
              request := some req }
  | _, _ => { state := s, request := none }

/-- The retry timer firing (the `setTimeout` callback installed by
`sendMessage`, src/hooks/useMessages.ts lines 135-138 and 144-147): run
`retryMessage(tempId)` with the given outcome, then
`retryTimeoutsRef.current.delete(tempId)`. -/
def fireRetry (chatId : Option String) (tempId : String)
    (outcome : SendOutcome) (s : ChatState) : ChatState :=
  let r := retryMessage chatId tempId outcome s
  { r.state with retryTimers := assocDelete tempId r.state.retryTimers }

/-- The content-and-sender heuristic of `addMessage`
(src/hooks/useMessages.ts lines 158 and 164): `msg` is a pending
counterpart of `newMessage` when it carries a temp id and has the same
content and sender id. -/
abbrev isCounterpartOf (newMessage msg : Message) : Prop :=
  msg.tempId.isSome ∧ msg.content = newMessage.content
    ∧ msg.senderId = newMessage.senderId

/-- The map callback of `addMessage` (src/hooks/useMessages.ts lines
163-169): replace a pending counterpart with the canonical message
(clearing the optimistic flag), replace a canonical-id match with the
incoming message, leave everything else alone. -/
def addMessageReplace (newMessage msg : Message) : Message :=
  if isCounterpartOf newMessage msg then
    { newMessage with isOptimistic := false }
  else if msg._id = newMessage._id then newMessage
  else msg

/-- The function `addMessage` (src/hooks/useMessages.ts lines 153-174): reconciliation
of a pushed/loaded message against the visible sequence.  The
`pendingMessagesRef.delete(msg.tempId)` the source performs inside the
map callback for every content-and-sender match is modelled as a filter
over the registry removing exactly those keys. -/
def addMessage (newMessage : Message) (s : ChatState) : ChatState :=
  let exists_ := s.messages.any fun msg =>
    decide (msg._id = newMessage._id ∨ isCounterpartOf newMessage msg)
  if exists_ then
    { s with
      messages := s.messages.map (addMessageReplace newMessage)
      pending := s.pending.filter fun p =>
        decide (¬ ∃ msg ∈ s.messages, isCounterpartOf newMessage msg
          ∧ msg.tempId = some p.1) }
  else { s with messages := s.messages ++ [newMessage] }

/-- The per-message update performed by `updateMessageReadStatus` on a
matched message (src/hooks/useMessages.ts lines 180-192): copy `readBy`,
push `(userId, now)` only when no entry for `userId` is present, then
recompute `readCount` and set `isRead`. -/
def applyReadEntry (now : Nat) (userId : String) (msg : Message) : Message :=
  let newReadBy :=
    if msg.readBy.any (fun r => decide (r.userId = userId)) then msg.readBy
    else msg.readBy ++ [{ userId := userId, readAt := now }]
  { msg with readBy := newReadBy, readCount := newReadBy.length,
             isRead := true }

/-- The function `updateMessageReadStatus` (src/hooks/useMessages.ts lines 177-196);
`now` models the `new Date()` taken for the inserted entry. -/
def updateMessageReadStatus (now : Nat) (messageIds : List String)
    (userId : String) (msgs : List Message) : List Message :=
  msgs.map fun msg =>
    if msg._id ∈ messageIds then applyReadEntry now userId msg else msg

/-- The function `setMessagesData` (src/hooks/useMessages.ts lines 213-217): replace
the visible sequence and clear the Pending-Send Registry.  The source
does not touch `retryTimeoutsRef`. -/
def setMessagesData (newMessages : List Message) (s : ChatState) :
    ChatState :=
  { s with messages := newMessages, pending := [] }

/-- The function `removeMessage` (src/hooks/useMessages.ts lines 220-223). -/
def removeMessage (messageId : String) (s : ChatState) : ChatState :=
  { s with
    messages := s.messages.filter fun msg =>
      decide (msg._id ≠ messageId ∧ msg.tempId ≠ some messageId)
    pending := assocDelete messageId s.pending }

/-- The function `clearMessages` (src/hooks/useMessages.ts lines 226-232): empty the
sequence, clear the registry, cancel (clearTimeout + clear) every retry
timer. -/
def clearMessages (s : ChatState) : ChatState :=
  { s with messages := [], pending := [], retryTimers := [] }

/-- The state of the `MessageInput` component relevant to typing
indicators (src/components/MessageInput.tsx): the controlled input value
`message`, the local `isTyping` flag, whether the 2-second inactivity
`setTimeout` is currently armed (`typingTimeout`; each keystroke clears
any previous timer before arming a new one, so at most one is pending),
and the log of `onTyping` broadcasts emitted so far. -/
structure InputState where
  message : String
  isTyping : Bool
  typingTimeout : Bool
  broadcasts : List Bool
deriving DecidableEq

/-- The function `handleTyping` (src/components/MessageInput.tsx lines 26-57), run on
each change event with the new field `value`.  `wasEmpty` is computed
from the previous `message` state, as in the source closure. -/
def handleTyping (value : String) (s : InputState) : InputState :=
  let wasEmpty := s.message.length = 0
  let isEmpty := value.length = 0
  let s1 := { s with message := value }
  if isEmpty then
    if s1.isTyping then
      { s1 with isTyping := false, broadcasts := s1.broadcasts ++ [false] }
    else s1
  else
    let s2 :=
      if ¬ s1.isTyping ∧ ¬ wasEmpty then
        { s1 with isTyping := true, broadcasts := s1.broadcasts ++ [true] }
      else s1
    { s2 with typingTimeout := true }

/-- The expiry of the 2-second inactivity timer armed by `handleTyping`
(src/components/MessageInput.tsx lines 53-56): broadcast typing=false and
clear the local flag.  It can only run while a timer is armed. -/
def timeoutFire (s : InputState) : InputState :=
  if s.typingTimeout then
    { s with isTyping := false, typingTimeout := false,
             broadcasts := s.broadcasts ++ [false] }
  else s

/-- A burst of keystrokes: fold `handleTyping` over the successive field
values. -/
def keystrokes (values : List String) (s : InputState) : InputState :=
  values.foldl (fun st v => handleTyping v st) s

/-- Channel name constructors (`PUSHER_CHANNELS` in src/unnamed/part_005
lines 277-281). -/
def chatChannelName (chatId : String) : String := "chat-" ++ chatId

/-- The function `PUSHER_CHANNELS.TYPING`. -/
def typingChannelName (chatId : String) : String := "typing-" ++ chatId

/-- The function `PUSHER_CHANNELS.USER`. -/
def userChannelName (userId : String) : String := "user-" ++ userId

/-- The pusher-js client transport, at the granularity the claims need:
the set of channel names currently subscribed, plus logs of the
underlying network subscribe/unsubscribe calls issued.  pusher-js keys
subscriptions by channel name: `subscribe` on a name that is already
subscribed returns the existing channel object and issues no new
underlying subscribe call; `unsubscribe(name)` drops the named channel
unconditionally. -/
structure PusherTransport where
  channels : List String
  subscribeCalls : List String
  unsubscribeCalls : List String
deriving DecidableEq

/-- The function `pusherClient.subscribe(name)`. -/
def pusherSubscribe (name : String) (tr : PusherTransport) :
    PusherTransport :=
  if name ∈ tr.channels then tr
  else { tr with channels := name :: tr.channels,
                 subscribeCalls := tr.subscribeCalls ++ [name] }

/-- The function `pusherClient.unsubscribe(name)`. -/
def pusherUnsubscribe (name : String) (tr : PusherTransport) :
    PusherTransport :=
  { tr with channels := tr.channels.filter (fun c => decide (c ≠ name)),
            unsubscribeCalls := tr.unsubscribeCalls ++ [name] }

/-- State of the `usePusher` hook instance (src/hooks/usePusher.ts):
the `subscribedChannelsRef` set of channel names the hook tracks, plus
the shared transport. -/
structure PusherHookState where
  transport : PusherTransport
  subscribedChannels : List String
deriving DecidableEq

/-- Setup of the chat-channel effect of `usePusher`
(src/hooks/usePusher.ts lines 87-121): if the chat channel is already in
the tracked set, return early (no transport call at all); otherwise
subscribe the chat channel, add it to the tracked set, and subscribe the
typing channel (which is never added to the tracked set). -/
def chatEffectSetup (selectedChatId : String) (s : PusherHookState) :
    PusherHookState :=
  let chatChannel := chatChannelName selectedChatId
  if chatChannel ∈ s.subscribedChannels then s
  else
    let tr1 := pusherSubscribe chatChannel s.transport
    let tr2 := pusherSubscribe (typingChannelName selectedChatId) tr1
    { transport := tr2,
      subscribedChannels := chatChannel :: s.subscribedChannels }

/-- Cleanup of the chat-channel effect of `usePusher`
(src/hooks/usePusher.ts lines 123-127): unconditionally unsubscribe both
the chat and the typing channel from the transport and drop the chat
channel from the tracked set. -/
def chatEffectCleanup (selectedChatId : String) (s : PusherHookState) :
    PusherHookState :=
  let tr1 := pusherUnsubscribe (chatChannelName selectedChatId) s.transport
  let tr2 := pusherUnsubscribe (typingChannelName selectedChatId) tr1
  { transport := tr2,
    subscribedChannels := s.subscribedChannels.filter
      (fun c => decide (c ≠ chatChannelName selectedChatId)) }

/-- Setup of the `ChatSidebar` typing-subscription effect
(src/unnamed/part_004 lines 57-88): subscribe the typing channel of every
chat in the (deduplicated) chat list. -/
def sidebarEffectSetup (chatIds : List String) (tr : PusherTransport) :
    PusherTransport :=
  chatIds.foldl (fun t cid => pusherSubscribe (typingChannelName cid) t) tr

/-- Cleanup of the `ChatSidebar` effect (src/unnamed/part_004 lines
90-98): unsubscribe every typing channel it subscribed. -/
def sidebarEffectCleanup (chatIds : List String) (tr : PusherTransport) :
    PusherTransport :=
  chatIds.foldl (fun t cid => pusherUnsubscribe (typingChannelName cid) t) tr

/-! Concrete values used by witnesses and counterexamples. -/

/-- A plain canonical message as returned by the server (no optimistic
flags, no temp id). -/
def mkMsg (id c uid : String) : Message :=
  { _id := id, content := c, senderId := uid, chatId := "c1",
    createdAt := 0, messageType := "text",
    sender := { clerkId := uid, first_name := "U", last_name := "",
                image := none },
    readBy := [], isRead := false, readCount := 0,
    isOptimistic := false, isSending := false, sendError := false,
    tempId := none }

/-- The hook state at mount: no messages, empty registry, no timers. -/
def emptyChat : ChatState :=
  { messages := [], pending := [], retryTimers := [] }

/-- Record-update fact: clearing `isOptimistic` and `isSending` on a
message on which both are already clear is the identity. -/
theorem msgClearFlags (m : Message) (hopt : m.isOptimistic = false)
    (hsend : m.isSending = false) :
    ({ m with isOptimistic := false, isSending := false } : Message) = m := by
  cases m
  simp_all

/-- Record-update fact: clearing `isOptimistic` on a message on which it
is already clear is the identity. -/
theorem msgClearOpt (m : Message) (hopt : m.isOptimistic = false) :
    ({ m with isOptimistic := false } : Message) = m := by
  cases m
  simp_all

/-- Claim C5 counterexample: `setMessagesData` (the hook's exported
`setMessages`) does not cancel an outstanding automatic-retry timer — on
a state with one scheduled retry, the timer table is unchanged, not
emptied, after `setMessages([])`. -/
theorem setMessages_keeps_retry_timer :
    (setMessagesData []
      { messages := [], pending := [],
        retryTimers := [("t1", 3000)] }).retryTimers ≠ [] := by
  decide

/-- Claim C5 (amended): both `setMessages(list)` and `clear()` purge the
Pending-Send Registry, and `clear()` additionally cancels every
outstanding automatic-retry timer; `setMessages(list)`, however, leaves
the retry-timer table untouched, so a previously scheduled retry remains
scheduled across `setMessages`. -/
theorem setMessages_clear_purge_behavior (l : List Message)
    (s : ChatState) :
    (setMessagesData l s).pending = []
    ∧ (setMessagesData l s).messages = l
    ∧ (setMessagesData l s).retryTimers = s.retryTimers
    ∧ (clearMessages s).pending = []
    ∧ (clearMessages s).retryTimers = []
    ∧ (clearMessages s).messages = [] :=
  ⟨rfl, rfl, rfl, rfl, rfl, rfl⟩

/-- Claim C6: evaluation of `handleTyping` at the failing input.  With
the field empty and the local typing flag clear, the keystroke that makes
the field non-empty (`"h"`) emits no broadcast at all — the guard
`!isTyping && !wasEmpty` excludes the empty→non-empty transition — and
the typing=true broadcast is only emitted on the following keystroke. -/
theorem empty_to_nonempty_keystroke_no_broadcast :
    (handleTyping "h"
      { message := "", isTyping := false, typingTimeout := false,
        broadcasts := [] }).broadcasts = []
    ∧ (handleTyping "he" (handleTyping "h"
        { message := "", isTyping := false, typingTimeout := false,
          broadcasts := [] })).broadcasts = [true] := by
  decide

/-- Claim C8: `sendMessage` is a no-op when the conversation id is
absent, the user identity is absent, or the text is empty after
trimming: the hook state is returned unchanged (no message appended, no
registry entry, no timer) and no send request is issued. -/
theorem sendMessage_noop_on_invalid (chatId userId : Option String)
    (tempId : String) (now : Nat) (content : String)
    (outcome : SendOutcome) (s : ChatState)
    (h : chatId = none ∨ userId = none ∨ strTrim content = "") :
    sendMessage chatId userId tempId now content outcome s
      = { state := s, request := none } := by
  rcases h with h | h | h
  · subst h
    cases userId <;> simp [sendMessage]
  · subst h
    cases chatId <;> simp [sendMessage]
  · cases chatId <;> cases userId <;> simp [sendMessage, h]

/-- Witness for C8 at a concrete input: whitespace-only text. -/
theorem sendMessage_noop_on_invalid_witness :
    sendMessage (some "c1") (some "u1") "t1" 0 "   " .fail emptyChat
      = { state := emptyChat, request := none } :=
  sendMessage_noop_on_invalid (some "c1") (some "u1") "t1" 0 "   " .fail
    emptyChat (Or.inr (Or.inr (by decide)))

/-- Claim C10: after `removeMessage(id)`, the retry timer is left in
place, yet no message matching `id` (by either id kind) survives, the
retry (whether invoked directly or fired from its timer) finds no
message, changes nothing and issues no send request — so the removed
message never reappears in the visible sequence. -/
theorem removed_message_never_retried (chatId : Option String)
    (id : String) (outcome : SendOutcome) (s : ChatState) :
    (removeMessage id s).retryTimers = s.retryTimers
    ∧ (∀ msg ∈ (removeMessage id s).messages,
        msg._id ≠ id ∧ msg.tempId ≠ some id)
    ∧ retryMessage chatId id outcome (removeMessage id s)
        = { state := removeMessage id s, request := none }
    ∧ (fireRetry chatId id outcome (removeMessage id s)).messages
        = (removeMessage id s).messages := by
  have hmem : ∀ msg ∈ (removeMessage id s).messages,
      msg._id ≠ id ∧ msg.tempId ≠ some id := by
    intro msg hm
    have h := (List.mem_filter.mp hm).2
    simpa using h
  have hfind : (removeMessage id s).messages.find?
      (fun msg => decide (msg.tempId = some id) || decide (msg._id = id))
      = none := by
    apply listFindNone
    intro msg hm
    have h := hmem msg hm
    simp [h.1, h.2]
  have hretry : retryMessage chatId id outcome (removeMessage id s)
      = { state := removeMessage id s, request := none } := by
    cases chatId <;> simp [retryMessage, hfind]
  refine ⟨rfl, hmem, hretry, ?_⟩
  simp [fireRetry, hretry]

/-- The function `applyReadEntry` leaves the canonical id untouched. -/
theorem applyReadEntry_id (now : Nat) (u : String) (msg : Message) :
    (applyReadEntry now u msg)._id = msg._id := by
  simp [applyReadEntry]

/-- After `applyReadEntry`, the user is in the read-by set. -/
theorem applyReadEntry_mem (now : Nat) (u : String) (msg : Message) :
    (applyReadEntry now u msg).readBy.any
      (fun r => decide (r.userId = u)) = true := by
  by_cases h : msg.readBy.any (fun r => decide (r.userId = u)) = true
  · simp [applyReadEntry, h]
  · simp [applyReadEntry, h]

/-- The function `applyReadEntry` only inserts the user when absent: when the user is
already in the read-by set, the set is returned unchanged. -/
theorem applyReadEntry_of_present (now : Nat) (u : String) (msg : Message)
    (h : msg.readBy.any (fun r => decide (r.userId = u)) = true) :
    (applyReadEntry now u msg).readBy = msg.readBy := by
  simp [applyReadEntry, h]

/-- After `applyReadEntry`, the read count equals the size of the
read-by set. -/
theorem applyReadEntry_count (now : Nat) (u : String) (msg : Message) :
    (applyReadEntry now u msg).readCount
      = (applyReadEntry now u msg).readBy.length := by
  simp [applyReadEntry]

/-- The function `applyReadEntry` is idempotent, regardless of the two timestamps. -/
theorem applyReadEntry_idem (now1 now2 : Nat) (u : String) (msg : Message) :
    applyReadEntry now2 u (applyReadEntry now1 u msg)
      = applyReadEntry now1 u msg := by
  by_cases hex : ∃ r ∈ msg.readBy, r.userId = u
  · simp [applyReadEntry, hex]
  · simp [applyReadEntry, hex]

/-- The function `applyReadEntry` preserves each-user-at-most-once in the read-by
set. -/
theorem applyReadEntry_nodup (now : Nat) (u : String) (msg : Message)
    (h : (msg.readBy.map ReadEntry.userId).Nodup) :
    ((applyReadEntry now u msg).readBy.map ReadEntry.userId).Nodup := by
  by_cases hex : ∃ r ∈ msg.readBy, r.userId = u
  · have e : (applyReadEntry now u msg).readBy = msg.readBy := by
      simp [applyReadEntry, hex]
    rw [e]
    exact h
  · have e : (applyReadEntry now u msg).readBy
        = msg.readBy ++ [{ userId := u, readAt := now }] := by
      simp [applyReadEntry, hex]
    rw [e, List.map_append]
    simp only [List.map_cons, List.map_nil]
    rw [List.nodup_append]
    refine ⟨h, List.nodup_singleton u, ?_⟩
    intro a ha hb
    simp only [List.mem_singleton] at hb
    rcases List.mem_map.mp ha with ⟨r, hr, hru⟩
    exact hex ⟨r, hr, hru.trans hb⟩

/-- Pointwise idempotence lifted to `updateMessageReadStatus`. -/
theorem updateMessageReadStatus_idem (now1 now2 : Nat)
    (ids : List String) (u : String) (msgs : List Message) :
    updateMessageReadStatus now2 ids u
        (updateMessageReadStatus now1 ids u msgs)
      = updateMessageReadStatus now1 ids u msgs := by
  induction msgs with
  | nil => rfl
  | cons a t ih =>
      simp only [updateMessageReadStatus, List.map_cons] at *
      by_cases ha : a._id ∈ ids
      · rw [if_pos ha, if_pos (by rw [applyReadEntry_id]; exact ha),
          applyReadEntry_idem, ih]
      · rw [if_neg ha, if_neg ha, ih]

/-- Claim C7: `updateReadStatus` is an idempotent union.  Applying
`updateMessageReadStatus` twice for the same message and user (with any
timestamps) equals applying it once; when the user is already present the
read-by set is returned unchanged; and for every affected message the
read count equals the size of the read-by set, the user is present, and
— provided it held before — each user appears at most once. -/
theorem updateReadStatus_idempotent_union (now1 now2 : Nat)
    (mid u : String) (msgs : List Message)
    (hnd : ∀ msg ∈ msgs, (msg.readBy.map ReadEntry.userId).Nodup) :
    updateMessageReadStatus now2 [mid] u
        (updateMessageReadStatus now1 [mid] u msgs)
      = updateMessageReadStatus now1 [mid] u msgs
    ∧ (∀ msg ∈ msgs,
        msg.readBy.any (fun r => decide (r.userId = u)) = true →
        (applyReadEntry now1 u msg).readBy = msg.readBy)
    ∧ (∀ msg ∈ updateMessageReadStatus now1 [mid] u msgs,
        msg._id = mid →
        msg.readCount = msg.readBy.length
        ∧ msg.readBy.any (fun r => decide (r.userId = u)) = true
        ∧ (msg.readBy.map ReadEntry.userId).Nodup) := by
  refine ⟨updateMessageReadStatus_idem now1 now2 [mid] u msgs,
    fun msg _ h => applyReadEntry_of_present now1 u msg h, ?_⟩
  intro msg hmsg hid
  rcases List.mem_map.mp hmsg with ⟨a, ha, hfa⟩
  by_cases hin : a._id ∈ [mid]
  · rw [if_pos hin] at hfa
    subst hfa
    exact ⟨applyReadEntry_count now1 u a, applyReadEntry_mem now1 u a,
      applyReadEntry_nodup now1 u a (hnd a ha)⟩
  · rw [if_neg hin] at hfa
    subst hfa
    exact absurd (by simp [hid]) hin

/-- Witness for C7 at a concrete input: one message already read by
`u1`, marking it read for `u2` twice. -/
theorem updateReadStatus_idempotent_union_witness :
    updateMessageReadStatus 9 ["m1"] "u2"
        (updateMessageReadStatus 7 ["m1"] "u2"
          [{ (mkMsg "m1" "x" "u1") with
              readBy := [{ userId := "u1", readAt := 5 }],
              readCount := 1 }])
      = updateMessageReadStatus 7 ["m1"] "u2"
          [{ (mkMsg "m1" "x" "u1") with
              readBy := [{ userId := "u1", readAt := 5 }],
              readCount := 1 }] :=
  (updateReadStatus_idempotent_union 7 9 "m1" "u2"
    [{ (mkMsg "m1" "x" "u1") with
        readBy := [{ userId := "u1", readAt := 5 }],
        readCount := 1 }] (by decide)).1

/-- The function `retryMessage` never touches the retry-timer table: neither the
manual nor the automatic retry ever schedules a further automatic
retry. -/
theorem retryMessage_no_schedule (chatId : Option String) (t : String)
    (o : SendOutcome) (st : ChatState) :
    (retryMessage chatId t o st).state.retryTimers = st.retryTimers := by
  unfold retryMessage
  cases hf : st.messages.find?
      (fun msg => decide (msg.tempId = some t ∨ msg._id = t)) with
  | none => cases chatId <;> simp
  | some message =>
      cases chatId with
      | none => simp
      | some cid => cases o <;> simp [updateMessageStatus]

/-- Claim C3: a failed send marks the message failed and schedules
exactly one automatic retry, keyed by the temp id with the fixed 3000 ms
delay; `retryMessage` (manual or fired from the timer) never schedules
another automatic retry, and the timer callback removes its own entry, so
after the automatic retry fails no timer for that message remains. -/
theorem failed_send_single_auto_retry (cid uid tempId : String)
    (now : Nat) (content : String) (s : ChatState)
    (h : strTrim content ≠ "") :
    (sendMessage (some cid) (some uid) tempId now content .fail
        s).state.retryTimers
      = (tempId, 3000) :: s.retryTimers.filter (fun p => decide (p.1 ≠ tempId))
    ∧ (∀ msg ∈ (sendMessage (some cid) (some uid) tempId now content .fail
          s).state.messages,
        (msg.tempId = some tempId ∨ msg._id = tempId) →
        msg.sendError = true ∧ msg.isSending = false)
    ∧ (∀ (chatId : Option String) (t : String) (o : SendOutcome)
          (st : ChatState),
        (retryMessage chatId t o st).state.retryTimers = st.retryTimers)
    ∧ (∀ (chatId : Option String) (t : String) (o : SendOutcome)
          (st : ChatState),
        ∀ p ∈ (fireRetry chatId t o st).retryTimers, p.1 ≠ t) := by
  refine ⟨?_, ?_, retryMessage_no_schedule, ?_⟩
  · simp [sendMessage, h, addOptimisticMessage, updateMessageStatus,
      assocSet]
  · intro msg hm htarget
    have hmm : msg ∈ (updateMessageStatus tempId none true
        ((addOptimisticMessage (some cid) (some uid) tempId now
          (strTrim content) s).1)).messages := by
      simpa [sendMessage, h] using hm
    simp only [updateMessageStatus] at hmm
    rcases List.mem_map.mp hmm with ⟨a, _, hfa⟩
    by_cases hT : a.tempId = some tempId ∨ a._id = tempId
    · rw [updateStatusReplace_error_target tempId none a hT] at hfa
      rw [← hfa]
      exact ⟨rfl, rfl⟩
    · rw [updateStatusReplace_no_target tempId none true a hT] at hfa
      rw [← hfa] at htarget
      exact absurd htarget hT
  · intro chatId t o st p hp
    have h2 : p ∈ (retryMessage chatId t o st).state.retryTimers
        ∧ ¬p.1 = t := by
      simpa [fireRetry, assocDelete] using hp
    exact h2.2

/-- Witness for C3 at a concrete input: sending "hi" into an empty
state with a failing transport. -/
theorem failed_send_single_auto_retry_witness :
    (sendMessage (some "c1") (some "u1") "t1" 0 "hi" .fail
        emptyChat).state.retryTimers
      = ("t1", 3000) :: emptyChat.retryTimers.filter
          (fun p => decide (p.1 ≠ "t1")) :=
  (failed_send_single_auto_retry "c1" "u1" "t1" 0 "hi" emptyChat
    (by decide)).1

/-- The chat channel and the typing channel of a conversation have
distinct names. -/
theorem chat_ne_typing_channel (cid : String) :
    chatChannelName cid ≠ typingChannelName cid := by
  intro h
  have h2 := congrArg String.length h
  simp [chatChannelName, typingChannelName, String.length_append] at h2
  exact absurd h2 (by decide)

/-- Claim C2 counterexample: the code has no reference counting.  With
the sidebar holding a live subscription to `typing-c1` (it never
releases it in this trace), the `usePusher` chat-effect cleanup still
sends an unsubscribe for `typing-c1` to the transport, and the channel is
gone — the transport unsubscribe did not wait for every consumer to
release the channel. -/
theorem unsubscribe_with_live_consumer :
    "typing-c1" ∈ (chatEffectCleanup "c1" (chatEffectSetup "c1"
      { transport := sidebarEffectSetup ["c1"]
          { channels := [], subscribeCalls := [], unsubscribeCalls := [] },
        subscribedChannels := [] })).transport.unsubscribeCalls
    ∧ "typing-c1" ∉ (chatEffectCleanup "c1" (chatEffectSetup "c1"
        { transport := sidebarEffectSetup ["c1"]
            { channels := [], subscribeCalls := [],
              unsubscribeCalls := [] },
          subscribedChannels := [] })).transport.channels := by
  decide

/-- Claim C2 (amended): duplicate subscribe requests cause no new
underlying subscribe call — the hook returns early when the chat channel
is already in its tracked set, and the transport keys subscriptions by
channel name, so re-requesting an already-subscribed typing channel adds
no subscribe call; but there is no reference counting: the hook's
cleanup always issues unsubscribe calls for its chat and typing channels
and the channel leaves the transport, regardless of any other consumer
still wanting it. -/
theorem subscription_dedup_without_refcount (s : PusherHookState)
    (cid : String) :
    (chatChannelName cid ∈ s.subscribedChannels →
      chatEffectSetup cid s = s)
    ∧ (chatChannelName cid ∉ s.subscribedChannels →
        typingChannelName cid ∈ s.transport.channels →
        (chatEffectSetup cid s).transport.subscribeCalls.count
            (typingChannelName cid)
          = s.transport.subscribeCalls.count (typingChannelName cid))
    ∧ (chatEffectCleanup cid s).transport.unsubscribeCalls
        = s.transport.unsubscribeCalls
          ++ [chatChannelName cid, typingChannelName cid]
    ∧ typingChannelName cid ∉ (chatEffectCleanup cid s).transport.channels
    := by
  refine ⟨?_, ?_, ?_, ?_⟩
  · intro h
    simp [chatEffectSetup, h]
  · intro hnt hty
    simp only [chatEffectSetup, if_neg hnt]
    by_cases hc : chatChannelName cid ∈ s.transport.channels
    · simp [pusherSubscribe, hc, hty]
    · simp only [pusherSubscribe, if_neg hc]
      have hty2 : typingChannelName cid
          ∈ chatChannelName cid :: s.transport.channels :=
        List.mem_cons_of_mem _ hty
      simp only [if_pos hty2]
      rw [List.count_append]
      have hz : (List.count (typingChannelName cid) [chatChannelName cid])
          = 0 := by
        simp only [List.count_singleton]
        by_cases heq : chatChannelName cid = typingChannelName cid
        · exact absurd heq (chat_ne_typing_channel cid)
        · simp [heq]
      simp [hz]
  · simp [chatEffectCleanup, pusherUnsubscribe]
  · intro hmem
    simp [chatEffectCleanup, pusherUnsubscribe] at hmem

/-- A transport on which the sidebar already holds `typing-c1`. -/
def sidebarHeldTransport : PusherTransport :=
  { channels := ["typing-c1"], subscribeCalls := ["typing-c1"],
    unsubscribeCalls := [] }

/-- A fresh `usePusher` hook state over `sidebarHeldTransport`. -/
def hookStateOverSidebar : PusherHookState :=
  { transport := sidebarHeldTransport, subscribedChannels := [] }

/-- Witness for C2 (amended) at a concrete input: a hook whose transport
already has `typing-c1` subscribed (by the sidebar) and whose tracked set
is empty — subscribing chat `c1` adds no underlying subscribe call for
the typing channel. -/
theorem subscription_dedup_without_refcount_witness :
    (chatEffectSetup "c1" hookStateOverSidebar).transport.subscribeCalls.count
        (typingChannelName "c1")
      = hookStateOverSidebar.transport.subscribeCalls.count
          (typingChannelName "c1") :=
  (subscription_dedup_without_refcount hookStateOverSidebar "c1").2.1
    (by decide) (by decide)

/-- While the local typing flag is set, further non-empty keystrokes
only update the field and re-arm the inactivity timer: no broadcast is
emitted and the flag stays set. -/
theorem keystrokes_active_invariant (vs : List String) :
    ∀ s : InputState, (∀ v ∈ vs, v.length ≠ 0) → s.isTyping = true →
    s.typingTimeout = true →
    (keystrokes vs s).isTyping = true
    ∧ (keystrokes vs s).typingTimeout = true
    ∧ (keystrokes vs s).broadcasts = s.broadcasts := by
  induction vs with
  | nil => exact fun s _ hT hW => ⟨hT, hW, rfl⟩
  | cons v t ih =>
      intro s hvs hT hW
      have hv : v.length ≠ 0 := hvs v (by simp)
      have hstep : handleTyping v s
          = { s with message := v, typingTimeout := true } := by
        simp [handleTyping, hv, hT]
      simp only [keystrokes, List.foldl_cons]
      rw [hstep]
      have ih2 := ih { s with message := v, typingTimeout := true }
        (fun x hx => hvs x (by simp [hx])) hT rfl
      exact ⟨ih2.1, ih2.2.1, ih2.2.2⟩

/-- Claim C9: a burst of 10 keystrokes, each leaving the field
non-empty, starting from an idle empty input, followed by expiry of the
(single, repeatedly re-armed) 2-second inactivity timer, emits exactly
one typing=true broadcast and then exactly one typing=false broadcast. -/
theorem typing_burst_single_broadcast (v1 v2 : String) (vs : List String)
    (h1 : v1.length ≠ 0) (h2 : v2.length ≠ 0)
    (hvs : ∀ v ∈ vs, v.length ≠ 0) (_hlen : vs.length = 8) :
    (timeoutFire (keystrokes (v1 :: v2 :: vs)
        { message := "", isTyping := false, typingTimeout := false,
          broadcasts := [] })).broadcasts = [true, false]
    ∧ (timeoutFire (keystrokes (v1 :: v2 :: vs)
        { message := "", isTyping := false, typingTimeout := false,
          broadcasts := [] })).broadcasts.count true = 1
    ∧ (timeoutFire (keystrokes (v1 :: v2 :: vs)
        { message := "", isTyping := false, typingTimeout := false,
          broadcasts := [] })).broadcasts.count false = 1 := by
  have e1 : handleTyping v1
      ({ message := "", isTyping := false, typingTimeout := false,
         broadcasts := [] } : InputState)
      = { message := v1, isTyping := false, typingTimeout := true,
          broadcasts := [] } := by
    simp [handleTyping, h1]
  have e2 : handleTyping v2
      ({ message := v1, isTyping := false, typingTimeout := true,
         broadcasts := [] } : InputState)
      = { message := v2, isTyping := true, typingTimeout := true,
          broadcasts := [true] } := by
    simp [handleTyping, h1, h2]
  have hks : keystrokes (v1 :: v2 :: vs)
      { message := "", isTyping := false, typingTimeout := false,
        broadcasts := [] }
      = keystrokes vs
          { message := v2, isTyping := true, typingTimeout := true,
            broadcasts := [true] } := by
    simp only [keystrokes, List.foldl_cons]
    rw [e1, e2]
  obtain ⟨hT, hW, hB⟩ := keystrokes_active_invariant vs
    { message := v2, isTyping := true, typingTimeout := true,
      broadcasts := [true] } hvs rfl rfl
  have efinal : (timeoutFire (keystrokes (v1 :: v2 :: vs)
      { message := "", isTyping := false, typingTimeout := false,
        broadcasts := [] })).broadcasts = [true, false] := by
    rw [hks]
    simp [timeoutFire, hW, hB]
  refine ⟨efinal, ?_, ?_⟩ <;> rw [efinal] <;> rfl

/-- Witness for C9 at a concrete input: the burst
"a", "ab", ..., "abcdefghij". -/
theorem typing_burst_single_broadcast_witness :
    (timeoutFire (keystrokes
        ("a" :: "ab" :: ["abc", "abcd", "abcde", "abcdef", "abcdefg",
          "abcdefgh", "abcdefghi", "abcdefghij"])
        { message := "", isTyping := false, typingTimeout := false,
          broadcasts := [] })).broadcasts = [true, false] :=
  (typing_burst_single_broadcast "a" "ab"
    ["abc", "abcd", "abcde", "abcdef", "abcdefg", "abcdefgh",
      "abcdefghi", "abcdefghij"]
    (by decide) (by decide) (by decide) (by decide)).1

/-- A message without a temp id is not a pending counterpart of
anything — in particular the canonical message itself is not. -/
theorem not_counterpart_of_no_tempId (m msg : Message)
    (h : msg.tempId = none) : ¬ isCounterpartOf m msg := by
  intro hc
  rcases hc with ⟨hs, _⟩
  rw [h] at hs
  simp at hs

/-- The map callback of `addMessage` never produces a pending
counterpart (for a canonical incoming message): replaced entries carry
the incoming message's empty temp id, untouched entries were no
counterpart to begin with. -/
theorem addMessageReplace_not_counterpart (m : Message)
    (htmp : m.tempId = none) (msg : Message) :
    ¬ isCounterpartOf m (addMessageReplace m msg) := by
  unfold addMessageReplace
  by_cases h1 : isCounterpartOf m msg
  · rw [if_pos h1]
    exact not_counterpart_of_no_tempId m _ htmp
  · rw [if_neg h1]
    by_cases h2 : msg._id = m._id
    · rw [if_pos h2]
      exact not_counterpart_of_no_tempId m m htmp
    · rw [if_neg h2]
      exact h1

/-- The map callback of `addMessage` is idempotent for a canonical
incoming message. -/
theorem addMessageReplace_idem (m : Message) (htmp : m.tempId = none)
    (hopt : m.isOptimistic = false) (msg : Message) :
    addMessageReplace m (addMessageReplace m msg)
      = addMessageReplace m msg := by
  have hself : addMessageReplace m m = m := by
    unfold addMessageReplace
    rw [if_neg (not_counterpart_of_no_tempId m m htmp), if_pos rfl]
  by_cases h1 : isCounterpartOf m msg
  · have e1 : addMessageReplace m msg = m := by
      unfold addMessageReplace
      rw [if_pos h1]
      exact msgClearOpt m hopt
    rw [e1, hself]
  · by_cases h2 : msg._id = m._id
    · have e1 : addMessageReplace m msg = m := by
        unfold addMessageReplace
        rw [if_neg h1, if_pos h2]
      rw [e1, hself]
    · have e1 : addMessageReplace m msg = msg := by
        unfold addMessageReplace
        rw [if_neg h1, if_neg h2]
      rw [e1, e1]

/-- Entries matched by the reconciliation (by canonical id or by the
counterpart heuristic) end up bearing the canonical id. -/
theorem addMessageReplace_target_id (m msg : Message)
    (h : msg._id = m._id ∨ isCounterpartOf m msg) :
    (addMessageReplace m msg)._id = m._id := by
  unfold addMessageReplace
  by_cases h1 : isCounterpartOf m msg
  · rw [if_pos h1]
  · rcases h with h2 | h2
    · rw [if_neg h1, if_pos h2]
    · exact absurd h2 h1

/-- Entries matched by neither test are left untouched. -/
theorem addMessageReplace_of_nomatch (m msg : Message)
    (h : ¬(msg._id = m._id ∨ isCounterpartOf m msg)) :
    addMessageReplace m msg = msg := by
  push_neg at h
  unfold addMessageReplace
  rw [if_neg h.2, if_neg h.1]

/-- When some entry matches, `addMessage` takes the map branch. -/
theorem addMessage_messages_of_match (m : Message) (s : ChatState)
    (he : ∃ msg ∈ s.messages, msg._id = m._id ∨ isCounterpartOf m msg) :
    (addMessage m s).messages
      = s.messages.map (addMessageReplace m) := by
  simp [addMessage, he]

/-- The function `addMessage` is the identity on a state whose message list already
reconciles the incoming message: some entry matches, the map callback
fixes every entry, and the registry filter keeps every entry. -/
theorem addMessage_fixpoint (m : Message) (t : ChatState)
    (hmem : ∃ msg ∈ t.messages, msg._id = m._id ∨ isCounterpartOf m msg)
    (hmap : t.messages.map (addMessageReplace m) = t.messages)
    (hfil : t.pending.filter (fun p =>
        decide (¬ ∃ msg ∈ t.messages, isCounterpartOf m msg
          ∧ msg.tempId = some p.1)) = t.pending) :
    addMessage m t = t := by
  have hb : t.messages.any (fun msg =>
      decide (msg._id = m._id ∨ isCounterpartOf m msg)) = true := by
    simp only [List.any_eq_true, decide_eq_true_eq]
    exact hmem
  simp only [addMessage]
  rw [hb, if_pos rfl, hmap, hfil]

/-- A state holding one canonical message "old" under id "m1". -/
def oldMsgState : ChatState :=
  { messages := [mkMsg "m1" "old" "u1"], pending := [],
    retryTimers := [] }

/-- Claim C4 counterexample: an incoming message whose canonical id
already occurs is not ignored — the stored entry (content "old") is
replaced by the incoming one (content "new"), so the visible sequence
changes. -/
theorem addMessage_existing_id_not_ignored :
    (addMessage (mkMsg "m1" "new" "u1") oldMsgState).messages
      ≠ oldMsgState.messages := by
  decide

/-- Claim C4 (amended): when the incoming (canonical, temp-id-free,
non-optimistic) message's id already occurs in the visible sequence,
`addMessage` appends nothing — the sequence keeps its length, the
matching entry being overwritten with the incoming message — and the
operation is idempotent: applying `addMessage` twice with the same
message equals applying it once. -/
theorem addMessage_replace_idempotent (m : Message) (s : ChatState)
    (htmp : m.tempId = none) (hopt : m.isOptimistic = false) :
    ((∃ msg ∈ s.messages, msg._id = m._id) →
      (addMessage m s).messages.length = s.messages.length)
    ∧ addMessage m (addMessage m s) = addMessage m s := by
  constructor
  · rintro ⟨x, hx, hxid⟩
    rw [addMessage_messages_of_match m s ⟨x, hx, Or.inl hxid⟩,
      List.length_map]
  · by_cases he : ∃ msg ∈ s.messages,
        msg._id = m._id ∨ isCounterpartOf m msg
    · have hmsgs := addMessage_messages_of_match m s he
      apply addMessage_fixpoint
      · rcases he with ⟨x, hx, hPx⟩
        refine ⟨addMessageReplace m x, ?_,
          Or.inl (addMessageReplace_target_id m x hPx)⟩
        rw [hmsgs]
        exact List.mem_map_of_mem _ hx
      · rw [hmsgs]
        apply listMapId
        intro y hy
        rcases List.mem_map.mp hy with ⟨x, _, rfl⟩
        exact addMessageReplace_idem m htmp hopt x
      · apply listFilterAll
        intro p _
        apply decide_eq_true
        rintro ⟨msg, hmsg, hc, _⟩
        rw [hmsgs] at hmsg
        rcases List.mem_map.mp hmsg with ⟨x, _, rfl⟩
        exact addMessageReplace_not_counterpart m htmp x hc
    · have hnall : ∀ x ∈ s.messages,
          ¬(x._id = m._id ∨ isCounterpartOf m x) := by
        intro x hx hP
        exact he ⟨x, hx, hP⟩
      have hA : addMessage m s = { s with
          messages := s.messages ++ [m] } := by
        simp only [addMessage]
        rw [if_neg]
        simp only [List.any_eq_true, decide_eq_true_eq]
        rintro ⟨x, hx, hPx⟩
        exact hnall x hx hPx
      rw [hA]
      apply addMessage_fixpoint
      · exact ⟨m, by simp, Or.inl rfl⟩
      · have hm : addMessageReplace m m = m := by
          unfold addMessageReplace
          rw [if_neg (not_counterpart_of_no_tempId m m htmp), if_pos rfl]
        rw [List.map_append]
        rw [listMapId _ _ (fun x hx =>
          addMessageReplace_of_nomatch m x (hnall x hx))]
        simp [hm]
      · apply listFilterAll
        intro p _
        apply decide_eq_true
        rintro ⟨msg, hmsg, hc, _⟩
        rcases List.mem_append.mp hmsg with hin | hin
        · exact hnall msg hin (Or.inr hc)
        · rw [List.mem_singleton.mp hin] at hc
          exact not_counterpart_of_no_tempId m m htmp hc

/-- Witness for C4 (amended) at a concrete input. -/
theorem addMessage_replace_idempotent_witness :
    (addMessage (mkMsg "m1" "new" "u1") oldMsgState).messages.length
      = oldMsgState.messages.length
    ∧ addMessage (mkMsg "m1" "new" "u1")
        (addMessage (mkMsg "m1" "new" "u1") oldMsgState)
      = addMessage (mkMsg "m1" "new" "u1") oldMsgState :=
  have h := addMessage_replace_idempotent (mkMsg "m1" "new" "u1")
    oldMsgState (by decide) (by decide)
  ⟨h.1 ⟨mkMsg "m1" "old" "u1", by decide, by decide⟩, h.2⟩

/-- The map callback of `addMessage` fixes the canonical message
itself. -/
theorem addMessageReplace_self (m : Message) (htmp : m.tempId = none) :
    addMessageReplace m m = m := by
  unfold addMessageReplace
  rw [if_neg (not_counterpart_of_no_tempId m m htmp), if_pos rfl]

/-- Claim C1: commutative reconciliation.  Starting from a state whose
messages are unrelated to the new send (fresh temp id, fresh canonical
id, no pending entry with the same content and sender), create the
pending entry as `sendMessage` does, then apply the local send response
(`updateMessageStatus` with the canonical message `m`) and the push event
(`addMessage m`) in either order: both orders leave the visible sequence
equal to the original messages plus exactly one entry for the logical
message, bearing the canonical id, with the sending/failed/optimistic
flags clear and the temp id retired. -/
theorem reconciliation_no_duplicate (s0 : ChatState)
    (cid uid tempId : String) (now : Nat) (m : Message)
    (hsnd : m.senderId = uid) (htmp : m.tempId = none)
    (hopt : m.isOptimistic = false) (hsend : m.isSending = false)
    (herr : m.sendError = false) (hfresh : m._id ≠ tempId)
    (hid : ∀ msg ∈ s0.messages, msg._id ≠ m._id)
    (hctr : ∀ msg ∈ s0.messages, ¬ isCounterpartOf m msg)
    (htid : ∀ msg ∈ s0.messages,
      msg.tempId ≠ some tempId ∧ msg._id ≠ tempId) :
    (addMessage m (updateMessageStatus tempId (some m) false
        (addOptimisticMessage (some cid) (some uid) tempId now m.content
          s0).1)).messages
      = s0.messages ++ [m]
    ∧ (updateMessageStatus tempId (some m) false
        (addMessage m (addOptimisticMessage (some cid) (some uid) tempId
          now m.content s0).1)).messages
      = s0.messages ++ [m]
    ∧ (s0.messages ++ [m]).countP
        (fun msg => decide (msg._id = m._id)) = 1
    ∧ (∀ msg ∈ s0.messages ++ [m], msg._id = m._id →
        msg.isSending = false ∧ msg.sendError = false
        ∧ msg.isOptimistic = false ∧ msg.tempId = none) := by
  have hs1 : (addOptimisticMessage (some cid) (some uid) tempId now
      m.content s0).1.messages
      = s0.messages ++ [optimisticMessage cid uid tempId now m.content] :=
    rfl
  have hnotid : ∀ msg ∈ s0.messages,
      ¬(msg.tempId = some tempId ∨ msg._id = tempId) := by
    intro msg hmsg
    rcases htid msg hmsg with ⟨h1, h2⟩
    exact not_or.mpr ⟨h1, h2⟩
  have hnomatch : ∀ msg ∈ s0.messages,
      ¬(msg._id = m._id ∨ isCounterpartOf m msg) := by
    intro msg hmsg
    exact not_or.mpr ⟨hid msg hmsg, hctr msg hmsg⟩
  have hoptctr : isCounterpartOf m
      (optimisticMessage cid uid tempId now m.content) :=
    ⟨rfl, rfl, hsnd.symm⟩
  -- Order 1: send response first, then the push event.
  have hU : (updateMessageStatus tempId (some m) false
      (addOptimisticMessage (some cid) (some uid) tempId now m.content
        s0).1).messages = s0.messages ++ [m] := by
    show ((addOptimisticMessage (some cid) (some uid) tempId now m.content
        s0).1.messages.map (updateStatusReplace tempId (some m) false))
      = s0.messages ++ [m]
    rw [hs1, List.map_append]
    rw [listMapId _ _ (fun x hx =>
      updateStatusReplace_no_target tempId (some m) false x (hnotid x hx))]
    simp only [List.map_cons, List.map_nil]
    rw [updateStatusReplace_ok_target tempId m _ (Or.inl rfl)]
    rw [msgClearFlags m hopt hsend]
  have horder1 : (addMessage m (updateMessageStatus tempId (some m) false
      (addOptimisticMessage (some cid) (some uid) tempId now m.content
        s0).1)).messages = s0.messages ++ [m] := by
    have hex : ∃ msg ∈ (updateMessageStatus tempId (some m) false
        (addOptimisticMessage (some cid) (some uid) tempId now m.content
          s0).1).messages, msg._id = m._id ∨ isCounterpartOf m msg := by
      rw [hU]
      exact ⟨m, by simp, Or.inl rfl⟩
    rw [addMessage_messages_of_match m _ hex, hU, List.map_append]
    rw [listMapId _ _ (fun x hx =>
      addMessageReplace_of_nomatch m x (hnomatch x hx))]
    simp only [List.map_cons, List.map_nil]
    rw [addMessageReplace_self m htmp]
  -- Order 2: push event first, then the send response.
  have hAdd : (addMessage m (addOptimisticMessage (some cid) (some uid)
      tempId now m.content s0).1).messages = s0.messages ++ [m] := by
    have hex : ∃ msg ∈ (addOptimisticMessage (some cid) (some uid) tempId
        now m.content s0).1.messages,
        msg._id = m._id ∨ isCounterpartOf m msg := by
      rw [hs1]
      exact ⟨optimisticMessage cid uid tempId now m.content, by simp,
        Or.inr hoptctr⟩
    rw [addMessage_messages_of_match m _ hex, hs1, List.map_append]
    rw [listMapId _ _ (fun x hx =>
      addMessageReplace_of_nomatch m x (hnomatch x hx))]
    simp only [List.map_cons, List.map_nil]
    have : addMessageReplace m
        (optimisticMessage cid uid tempId now m.content)
        = { m with isOptimistic := false } := by
      unfold addMessageReplace
      rw [if_pos hoptctr]
    rw [this, msgClearOpt m hopt]
  have horder2 : (updateMessageStatus tempId (some m) false
      (addMessage m (addOptimisticMessage (some cid) (some uid) tempId now
        m.content s0).1)).messages = s0.messages ++ [m] := by
    show ((addMessage m (addOptimisticMessage (some cid) (some uid) tempId
        now m.content s0).1).messages.map
          (updateStatusReplace tempId (some m) false))
      = s0.messages ++ [m]
    rw [hAdd, List.map_append]
    rw [listMapId _ _ (fun x hx =>
      updateStatusReplace_no_target tempId (some m) false x (hnotid x hx))]
    simp only [List.map_cons, List.map_nil]
    rw [updateStatusReplace_no_target tempId (some m) false m
      (not_or.mpr ⟨by rw [htmp]; exact fun hc => Option.noConfusion hc,
        hfresh⟩)]
  refine ⟨horder1, horder2, ?_, ?_⟩
  · rw [List.countP_append]
    rw [listCountPZero _ _ (fun x hx => by simp [hid x hx])]
    simp
  · intro msg hmsg _hmid
    rcases List.mem_append.mp hmsg with hin | hin
    · exact absurd _hmid (hid msg hin)
    · rw [List.mem_singleton.mp hin]
      exact ⟨hsend, herr, hopt, htmp⟩

/-- Witness for C1 at a concrete input: sending "hi" from an empty
state, canonical id "m1", temp id "t1". -/
theorem reconciliation_no_duplicate_witness :
    (addMessage (mkMsg "m1" "hi" "u1") (updateMessageStatus "t1"
        (some (mkMsg "m1" "hi" "u1")) false
        (addOptimisticMessage (some "c1") (some "u1") "t1" 0
          (mkMsg "m1" "hi" "u1").content emptyChat).1)).messages
      = emptyChat.messages ++ [mkMsg "m1" "hi" "u1"] :=
  (reconciliation_no_duplicate emptyChat "c1" "u1" "t1" 0
    (mkMsg "m1" "hi" "u1") (by decide) (by decide) (by decide) (by decide)
    (by decide) (by decide) (by decide) (by decide) (by decide)).1

end ChatApp
